import Mathlib

/-!
Shallow embedding of the LFDT license compliance verification script
(`verify-lfdt-licenses.js`) and proofs of its specification's claims.

The compliance decision engine is embedded directly from the source:
the license allowlist `APPROVED_LICENSES`, the auto-approval condition
on the two Apache strings, the adoption gate on repository statistics,
the per-dependency dispatch into the three report buckets, and the
exit-code mapping.  External lookups (npm registry, GitHub API) are
modelled as inputs to the functions that consume their results.
-/

set_option autoImplicit false

namespace LFDT

/-- The LFDT approved licenses set, verbatim from the source
(`APPROVED_LICENSES`, lines 16-41); Apache-2.0 is excluded because it
is auto-approved by a separate check. -/
def APPROVED_LICENSES : List String :=
  [ "BSD-2-Clause"
  , "BSD-2-Clause-FreeBSD"
  , "BSD-3-Clause"
  , "MIT"
  , "ISC"
  , "Python-2.0"
  , "BSL-1.0"
  , "Boost"
  , "bzip2-1.0.6"
  , "OLDAP-2.7"
  , "OLDAP-2.8"
  , "PostgreSQL"
  , "TCL"
  , "W3C"
  , "X11"
  , "Zlib"
  , "OFL-1.0"
  , "OFL-1.1"
  , "CC-BY-1.0"
  , "CC-BY-2.0"
  , "CC-BY-2.5"
  , "CC-BY-3.0"
  , "Public Domain"
  , "Unlicense" ]

/-- Repository statistics as assembled by `getGitHubStats` (lines 187-195):
star count, fork count and age in whole months.  Fields are integers so
that structurally invalid records (negative counts) are representable,
as the spec discusses them. -/
structure RepoStats where
  stars : Int
  forks : Int
  age : Int
  deriving Repr, DecidableEq

/-- The result record built by `checkPackageCompliance` (lines 218-226). -/
structure ComplianceResult where
  name : String
  version : String
  license : String
  repo : Option String
  githubStats : Option RepoStats
  status : String
  reason : String
  deriving Repr, DecidableEq

/-- Whether a character is a version-range decorator, the character
class `[\^~]` of the cleaning regex (lines 127, 147, 211). -/
def isDecorator (c : Char) : Bool := c == '^' || c == '~'

/-- JavaScript `s.replace(/[\^~]/, '')` on the character list: with no
global flag the regex replaces only the first matching character. -/
def removeFirstDecorator : List Char → List Char
  | [] => []
  | c :: rest => if isDecorator c then rest else c :: removeFirstDecorator rest

/-- `spec.replace(/[\^~]/, '')` as applied to a string (lines 127, 147, 211). -/
def cleanSpec (s : String) : String := String.mk (removeFirstDecorator s.toList)

/-- Number of decorator characters in a string. -/
def decoratorCount (s : String) : Nat := s.toList.countP isDecorator

/-- The package spec actually handed to `npm view` by `getPackageLicense`
(line 127) / `getPackageRepo` (line 147): `checkPackageCompliance` first
cleans the version (line 211), builds `name@cleanVersion` (line 212), and
the lookup helper cleans the resulting spec once more. -/
def lookupSpec (packageName version : String) : String :=
  cleanSpec (packageName ++ "@" ++ cleanSpec version)

/-- The auto-approval condition of line 229: the license string equals
`"Apache-2.0"` or `"Apache 2.0"`. -/
def isAutoApproved (license : String) : Bool :=
  license == "Apache-2.0" || license == "Apache 2.0"

/-- The compliance decision of `checkPackageCompliance` (lines 209-260).
The external lookup results (license, repository, GitHub stats) are
inputs; the function builds the result record exactly as the source
does, including the status strings and justification texts. -/
def checkPackageCompliance (packageName version license : String)
    (repo : Option String) (githubStats : Option RepoStats) : ComplianceResult :=
  let cleanVersion := cleanSpec version
  let base : ComplianceResult :=
    { name := packageName
      version := cleanVersion
      license := license
      repo := repo
      githubStats := githubStats
      status := "unknown"
      reason := "" }
  if isAutoApproved license then
    { base with
        status := "approved"
        reason := "Apache-2.0 license (automatically approved)" }
  else if APPROVED_LICENSES.contains license then
    match githubStats with
    | some s =>
      if 12 ≤ s.age ∧ (10 ≤ s.stars ∨ 10 ≤ s.forks) then
        { base with
            status := "approved"
            reason := license ++ " license with substantial use (" ++ toString s.stars
              ++ " stars, " ++ toString s.forks ++ " forks, " ++ toString s.age
              ++ " months old)" }
      else
        { base with
            status := "needs-review"
            reason := license ++ " license but insufficient GitHub adoption ("
              ++ toString s.stars ++ " stars, " ++ toString s.forks ++ " forks, "
              ++ toString s.age ++ " months old)" }
    | none =>
      { base with
          status := "needs-review"
          reason := license ++ " license (approved) but unable to verify substantial use" }
  else
    { base with
        status := "rejected"
        reason := license ++ " license is not on the LFDT approved list" }

/-- No member of the conditional-approval list is one of the two
auto-approved Apache strings. -/
theorem approved_not_auto :
    APPROVED_LICENSES.all (fun l => !isAutoApproved l) = true := by decide

/-- Membership in the conditional set falsifies the auto-approval
condition tested first by `checkPackageCompliance`. -/
theorem mem_approved_not_auto {L : String} (hL : L ∈ APPROVED_LICENSES) :
    isAutoApproved L = false := by
  have h := List.all_eq_true.mp approved_not_auto L hL
  simpa using h

/-- C1: for every license in the conditional-approval set and every present
repository stats record, `checkPackageCompliance` yields status `"approved"`
iff `age ≥ 12 ∧ (stars ≥ 10 ∨ forks ≥ 10)`, and when that adoption gate
fails the status is `"needs-review"`, never `"rejected"`. -/
theorem conditional_gate_characterization (n v L : String) (r : Option String)
    (s : RepoStats) (hL : L ∈ APPROVED_LICENSES) :
    ((checkPackageCompliance n v L r (some s)).status = "approved" ↔
      (12 ≤ s.age ∧ (10 ≤ s.stars ∨ 10 ≤ s.forks))) ∧
    (¬(12 ≤ s.age ∧ (10 ≤ s.stars ∨ 10 ≤ s.forks)) →
      (checkPackageCompliance n v L r (some s)).status = "needs-review") := by
  have hauto := mem_approved_not_auto hL
  by_cases hgate : 12 ≤ s.age ∧ (10 ≤ s.stars ∨ 10 ≤ s.forks) <;>
    simp [checkPackageCompliance, hauto, hL, hgate]

/-- C1 witness: `"MIT"` with 50 stars, 5 forks, 24 months is approved. -/
theorem conditional_gate_characterization_witness :
    ("MIT" ∈ APPROVED_LICENSES) ∧
    (checkPackageCompliance "left-pad" "1.3.0" "MIT" none
      (some ⟨50, 5, 24⟩)).status = "approved" := by
  refine ⟨by decide, ?_⟩
  exact ((conditional_gate_characterization "left-pad" "1.3.0" "MIT" none
    ⟨50, 5, 24⟩ (by decide)).1).mpr (by decide)

/-- C2: every license satisfying the auto-approval rule is approved for
every possible repository stats value, absent stats included; the
adoption gate never influences the verdict. -/
theorem auto_approved_always_approved (n v L : String) (r : Option String)
    (githubStats : Option RepoStats) (hL : isAutoApproved L = true) :
    (checkPackageCompliance n v L r githubStats).status = "approved" := by
  simp [checkPackageCompliance, hL]

/-- C2 witness: `"Apache 2.0"` with absent stats is approved. -/
theorem auto_approved_always_approved_witness :
    isAutoApproved "Apache 2.0" = true ∧
    (checkPackageCompliance "pkg" "0.0.1" "Apache 2.0" none none).status = "approved" :=
  ⟨by decide, auto_approved_always_approved "pkg" "0.0.1" "Apache 2.0" none none (by decide)⟩

/-- C3: a license that is neither auto-approved nor in the
conditional-approval set — the `"Unknown"` sentinel included — is
rejected for every possible repository stats value. -/
theorem non_approved_rejected (n v L : String) (r : Option String)
    (githubStats : Option RepoStats) (hauto : isAutoApproved L = false)
    (hmem : L ∉ APPROVED_LICENSES) :
    (checkPackageCompliance n v L r githubStats).status = "rejected" := by
  cases githubStats <;> simp [checkPackageCompliance, hauto, hmem]

/-- C3 witness: the `"Unknown"` sentinel is rejected. -/
theorem non_approved_rejected_witness :
    isAutoApproved "Unknown" = false ∧ "Unknown" ∉ APPROVED_LICENSES ∧
    (checkPackageCompliance "pkg" "1.0.0" "Unknown" none none).status = "rejected" :=
  ⟨by decide, by decide,
    non_approved_rejected "pkg" "1.0.0" "Unknown" none none (by decide) (by decide)⟩

/-- C4: a conditionally-approved license with absent repository stats is
marked needs-review — never approved or rejected — with the justification
saying substantial use could not be verified. -/
theorem conditional_absent_stats_needs_review (n v L : String) (r : Option String)
    (hL : L ∈ APPROVED_LICENSES) :
    (checkPackageCompliance n v L r none).status = "needs-review" ∧
    (checkPackageCompliance n v L r none).reason =
      L ++ " license (approved) but unable to verify substantial use" := by
  have hauto := mem_approved_not_auto hL
  simp [checkPackageCompliance, hauto, hL]

/-- C4 witness: `"MIT"` with absent stats is needs-review. -/
theorem conditional_absent_stats_needs_review_witness :
    ("MIT" ∈ APPROVED_LICENSES) ∧
    (checkPackageCompliance "pkg" "1.0.0" "MIT" none none).status = "needs-review" := by
  refine ⟨by decide, ?_⟩
  exact (conditional_absent_stats_needs_review "pkg" "1.0.0" "MIT" none (by decide)).1

/-- Every status produced by `checkPackageCompliance` is one of the three
verdict strings: each branch of the function overwrites the initial
`"unknown"` placeholder. -/
theorem status_total (n v L : String) (r : Option String) (s : Option RepoStats) :
    (checkPackageCompliance n v L r s).status = "approved" ∨
    (checkPackageCompliance n v L r s).status = "needs-review" ∨
    (checkPackageCompliance n v L r s).status = "rejected" := by
  unfold checkPackageCompliance
  cases s <;> repeat' first | split | tauto

/-- The result record carries the evaluated package's name unchanged. -/
theorem checkPackageCompliance_name (n v L : String) (r : Option String)
    (s : Option RepoStats) : (checkPackageCompliance n v L r s).name = n := by
  unfold checkPackageCompliance
  cases s <;> repeat' first | split | rfl

/-- C6 (amended): the evaluator raises no error for any input — it is a
total function returning one of the three verdicts even for structurally
invalid repository stats (the fields range over all integers, negative
counts included); no InvalidInput validation exists in the code. -/
theorem evaluator_total_never_fails (n v L : String) (r : Option String)
    (s : Option RepoStats) :
    (checkPackageCompliance n v L r s).status = "approved" ∨
    (checkPackageCompliance n v L r s).status = "needs-review" ∨
    (checkPackageCompliance n v L r s).status = "rejected" :=
  status_total n v L r s

/-- C6 counterexample: a stats record with a negative star count does not
make the evaluator fail with an InvalidInput error — the record flows
through the adoption gate and yields the ordinary verdict `"approved"`
(forks 20 ≥ 10 and age 24 ≥ 12). -/
theorem evaluator_negative_stars_returns_verdict :
    (checkPackageCompliance "pkg" "1.0.0" "MIT" none
      (some { stars := -5, forks := 20, age := 24 })).status = "approved" := by
  decide

/-- C7 counterexample: `"Apache 2.0"` is a second, distinct auto-approved
identifier, so auto-approval is not equality with a single designated
identifier. -/
theorem isAutoApproved_two_identifiers :
    isAutoApproved "Apache-2.0" = true ∧ isAutoApproved "Apache 2.0" = true ∧
    "Apache 2.0" ≠ "Apache-2.0" := by decide

/-- C7 (amended): `isAutoApproved` holds iff the license string equals one
of exactly two designated identifiers, `"Apache-2.0"` or `"Apache 2.0"`. -/
theorem isAutoApproved_iff (L : String) :
    isAutoApproved L = true ↔ (L = "Apache-2.0" ∨ L = "Apache 2.0") := by
  simp [isAutoApproved]

/-- Removing the first decorator drops the decorator count by exactly one
(truncated subtraction covers the decorator-free case). -/
theorem countP_removeFirstDecorator (l : List Char) :
    (removeFirstDecorator l).countP isDecorator = l.countP isDecorator - 1 := by
  induction l with
  | nil => rfl
  | cons c rest ih =>
    by_cases h : isDecorator c = true <;>
      simp [removeFirstDecorator, h, List.countP_cons, ih]

/-- `cleanSpec` removes exactly one decorator character. -/
theorem decoratorCount_cleanSpec (s : String) :
    decoratorCount (cleanSpec s) = decoratorCount s - 1 := by
  simpa [decoratorCount, cleanSpec] using countP_removeFirstDecorator s.toList

/-- Decorator counting distributes over string concatenation. -/
theorem decoratorCount_append (a b : String) :
    decoratorCount (a ++ b) = decoratorCount a + decoratorCount b := by
  simp [decoratorCount, String.toList, String.data_append, List.countP_append]

/-- C8 counterexample: a version with three decorator characters is not
fully stripped — the spec handed to the registry lookup still contains a
`'~'`, because each of the two cleaning steps removes only the first
decorator occurrence (`replace(/[\^~]/, ...)` without the global flag). -/
theorem lookupSpec_not_all_stripped :
    lookupSpec "pkg" "^~~1.0.0" = "pkg@~1.0.0" ∧
    decoratorCount (lookupSpec "pkg" "^~~1.0.0") = 1 := by decide

/-- C8 (amended): the two successive cleanings (one on the version in
`checkPackageCompliance`, one on the package spec in the lookup helper)
each strip one decorator character, so any version carrying at most two
decorator characters — `"^~1.0.0"` included — produces a fully
decorator-free registry lookup spec. -/
theorem lookupSpec_strips_decorators (packageName version : String)
    (hname : decoratorCount packageName = 0)
    (hver : decoratorCount version ≤ 2) :
    decoratorCount (lookupSpec packageName version) = 0 := by
  have hat : decoratorCount "@" = 0 := by decide
  have hclean := decoratorCount_cleanSpec version
  unfold lookupSpec
  rw [decoratorCount_cleanSpec, decoratorCount_append, decoratorCount_append,
    hname, hat, hclean]
  omega

/-- C8 amended witness: a single leading caret is fully stripped. -/
theorem lookupSpec_strips_decorators_witness :
    decoratorCount "pkg" = 0 ∧ decoratorCount "^1.0.0" ≤ 2 ∧
    decoratorCount (lookupSpec "pkg" "^1.0.0") = 0 :=
  ⟨by decide, by decide, lookupSpec_strips_decorators "pkg" "^1.0.0" (by decide) (by decide)⟩

/-- The three report buckets assembled by `verifyDependencies`
(lines 282-286). -/
structure Buckets where
  approved : List ComplianceResult
  needsReview : List ComplianceResult
  rejected : List ComplianceResult
  deriving Repr, DecidableEq

/-- The aggregate outcome of a finalized report (lines 356-371): rejected
dominates, then needs-review produces a warning, else success. -/
inductive AggregateOutcome
  | rejectedExit
  | reviewWarning
  | success
  deriving DecidableEq, Repr

/-- The tail of `verifyDependencies` (lines 356-371): `process.exit(1)`
iff the rejected bucket is non-empty; a warning is printed when only the
needs-review bucket is non-empty; otherwise success. -/
def aggregateOutcome (b : Buckets) : AggregateOutcome :=
  if 0 < b.rejected.length then .rejectedExit
  else if 0 < b.needsReview.length then .reviewWarning
  else .success

/-- Process exit code for each aggregate outcome: only the rejected case
calls `process.exit(1)`; the other paths fall through to a normal exit. -/
def exitCodeOf : AggregateOutcome → Nat
  | .rejectedExit => 1
  | .reviewWarning => 0
  | .success => 0

/-- Whole-run exit code: `getPackageJson` calls `process.exit(1)` on any
manifest-acquisition failure (lines 65-71) before evaluation starts;
otherwise the aggregate outcome decides the code. -/
def runExitCode (manifestFatal : Bool) (b : Buckets) : Nat :=
  if manifestFatal then 1 else exitCodeOf (aggregateOutcome b)

/-- C5: the run exits 1 iff the rejected bucket is non-empty or manifest
acquisition failed fatally; with an empty rejected bucket a non-empty
needs-review bucket yields exit 0 with a warning, and empty buckets yield
exit 0 with success; rejected dominates needs-review. -/
theorem aggregate_exit_status (manifestFatal : Bool) (b : Buckets) :
    (runExitCode manifestFatal b = 1 ↔ (manifestFatal = true ∨ b.rejected ≠ [])) ∧
    (b.rejected ≠ [] → aggregateOutcome b = .rejectedExit) ∧
    (b.rejected = [] → b.needsReview ≠ [] →
      aggregateOutcome b = .reviewWarning ∧ exitCodeOf (aggregateOutcome b) = 0) ∧
    (b.rejected = [] → b.needsReview = [] →
      aggregateOutcome b = .success ∧ exitCodeOf (aggregateOutcome b) = 0) := by
  obtain ⟨a, nr, rj⟩ := b
  cases manifestFatal <;> cases nr <;> cases rj <;>
    simp [runExitCode, aggregateOutcome, exitCodeOf]

/-- C5 witness: one rejected result forces exit code 1 even with the
needs-review bucket empty and no manifest failure. -/
theorem aggregate_exit_status_witness :
    runExitCode false
      { approved := []
        needsReview := []
        rejected := [checkPackageCompliance "pkg" "1.0.0" "GPL-3.0" none none] } = 1 :=
  (aggregate_exit_status false _).1.mpr (Or.inr (by simp))

/-- One dependency entry of the merged mapping together with the
Metadata Provider's responses for it (license, repository, stats). -/
structure DepInfo where
  name : String
  version : String
  license : String
  repo : Option String
  stats : Option RepoStats
  deriving Repr, DecidableEq

/-- Evaluate one dependency, as the batch loop does (line 291). -/
def evalDep (d : DepInfo) : ComplianceResult :=
  checkPackageCompliance d.name d.version d.license d.repo d.stats

/-- The `switch (result.status)` dispatch of the batch loop
(lines 293-306): push into the matching bucket; a status matching no
case would fall through and be dropped. -/
def dispatch (b : Buckets) (r : ComplianceResult) : Buckets :=
  if r.status = "approved" then { b with approved := b.approved ++ [r] }
  else if r.status = "needs-review" then { b with needsReview := b.needsReview ++ [r] }
  else if r.status = "rejected" then { b with rejected := b.rejected ++ [r] }
  else b

/-- The batch loop of `verifyDependencies` (lines 289-307) over the
merged dependency list, starting from empty buckets. -/
def runBatch (deps : List DepInfo) : Buckets :=
  deps.foldl (fun b d => dispatch b (evalDep d)) ⟨[], [], []⟩

/-- The multiset of dependency names across all three buckets. -/
def bucketNames (b : Buckets) : Multiset String :=
  (b.approved.map ComplianceResult.name : Multiset String)
    + (b.needsReview.map ComplianceResult.name : Multiset String)
    + (b.rejected.map ComplianceResult.name : Multiset String)

/-- The evaluation of a dependency keeps its name. -/
theorem evalDep_name (d : DepInfo) : (evalDep d).name = d.name :=
  checkPackageCompliance_name d.name d.version d.license d.repo d.stats

/-- Dispatching a result with one of the three verdict statuses adds
exactly its name to the bucket name multiset. -/
theorem bucketNames_dispatch (b : Buckets) (r : ComplianceResult)
    (h : r.status = "approved" ∨ r.status = "needs-review" ∨ r.status = "rejected") :
    bucketNames (dispatch b r) = bucketNames b + {r.name} := by
  rcases h with h | h | h
  · simp [dispatch, h, bucketNames, add_comm, add_left_comm, add_assoc]
  · simp [dispatch, h, bucketNames, add_comm, add_left_comm, add_assoc]
    simp only [← List.append_assoc]
    exact List.perm_middle
  · simp [dispatch, h, bucketNames, add_comm, add_left_comm, add_assoc]
    simp only [← List.append_assoc]
    exact List.perm_append_singleton _ _

/-- Accumulator form of the batch invariant: folding the loop body over
`deps` adds exactly the dependency names to the bucket name multiset. -/
theorem bucketNames_foldl (deps : List DepInfo) (b : Buckets) :
    bucketNames (deps.foldl (fun b d => dispatch b (evalDep d)) b)
      = bucketNames b + (deps.map DepInfo.name : Multiset String) := by
  induction deps generalizing b with
  | nil => simp
  | cons d ds ih =>
    rw [List.foldl_cons, ih, bucketNames_dispatch b (evalDep d)
      (status_total d.name d.version d.license d.repo d.stats), evalDep_name]
    simp [add_assoc, Multiset.singleton_add]

/-- C9: after the batch loop, the multiset of dependency names across the
three buckets equals the merged input dependency names — no evaluation
result is dropped by the dispatch — and when the input names are
duplicate-free, each evaluated dependency appears exactly once across
the buckets, hence in exactly one bucket. -/
theorem batch_buckets_partition (deps : List DepInfo) :
    bucketNames (runBatch deps) = (deps.map DepInfo.name : Multiset String) ∧
    ((deps.map DepInfo.name).Nodup → ∀ d ∈ deps,
      Multiset.count d.name (bucketNames (runBatch deps)) = 1) := by
  have hfold := bucketNames_foldl deps ⟨[], [], []⟩
  have hempty : bucketNames ⟨[], [], []⟩ = 0 := by simp [bucketNames]
  rw [runBatch] at *
  rw [hempty, zero_add] at hfold
  refine ⟨hfold, fun hnd d hd => ?_⟩
  rw [hfold]
  exact Multiset.count_eq_one_of_mem (by simpa using hnd)
    (by simpa using List.mem_map_of_mem DepInfo.name hd)

/-- C9 witness: two distinct dependencies land in two different buckets
and each name occurs exactly once across all buckets. -/
theorem batch_buckets_partition_witness :
    Multiset.count "a"
      (bucketNames (runBatch
        [ { name := "a", version := "1.0.0", license := "MIT",
            repo := none, stats := none }
        , { name := "b", version := "2.0.0", license := "Apache-2.0",
            repo := none, stats := none } ])) = 1 :=
  (batch_buckets_partition _).2 (by decide) _ (List.mem_cons_self _ _)

/-- Character-list version of `startsWith` used to model substring and
regex-anchored matching. -/
def startsWithList : List Char → List Char → Bool
  | [], _ => true
  | _ :: _, [] => false
  | p :: ps, c :: cs => p == c && startsWithList ps cs

/-- JavaScript `s.includes(pat)`: some suffix of `s` starts with `pat`. -/
def containsSub (pat : List Char) : List Char → Bool
  | [] => pat.isEmpty
  | c :: rest => startsWithList pat (c :: rest) || containsSub pat rest

/-- Whether a character list contains no `'/'`. -/
def noSlash : List Char → Bool
  | [] => true
  | c :: rest => c != '/' && noSlash rest

/-- Skip to the first `'/'` and require the remainder to be a non-empty
slash-free segment — the `\/([^\/]+)$` part of the shorthand regex. -/
def tailAfterFirstSlash : List Char → Bool
  | [] => false
  | c :: rest => if c == '/' then !rest.isEmpty && noSlash rest else tailAfterFirstSlash rest

/-- The shorthand pattern `^([^\/]+)\/([^\/]+)$` of
`fetchPackageJsonFromGitHub` (line 81): exactly two non-empty
slash-separated segments. -/
def ownerRepoShorthand (cs : List Char) : Bool :=
  match cs with
  | [] => false
  | c :: rest => c != '/' && tailAfterFirstSlash rest

/-- Skip to the first `'/'` and require the next character to exist and
be neither `'/'` nor `'?'` — the `\/([^\/\?]+)` part of the URL regex. -/
def ghSlashThenChar : List Char → Bool
  | [] => false
  | c :: rest =>
    if c == '/' then
      match rest with
      | [] => false
      | d :: _ => d != '/' && d != '?'
    else ghSlashThenChar rest

/-- After an occurrence of `github.com/`: matches `([^\/]+)\/([^\/\?]+)`. -/
def ghOwnerRepoTail : List Char → Bool
  | [] => false
  | c :: rest => c != '/' && ghSlashThenChar rest

/-- Existence of a match of the URL pattern
`github\.com\/([^\/]+)\/([^\/\?]+)` (line 80) anywhere in the string:
scan every suffix for the literal `github.com/` (11 characters) followed
by an owner/repo tail. -/
def ghUrlMatch : List Char → Bool
  | [] => false
  | c :: rest =>
    (startsWithList "github.com/".toList (c :: rest) && ghOwnerRepoTail ((c :: rest).drop 11))
      || ghUrlMatch rest

/-- The three ways `getPackageJson` can proceed on a source selector. -/
inductive SourceRoute
  | githubFetch
  | localRead
  | fatalError
  deriving DecidableEq, Repr

/-- The routing of `getPackageJson` (lines 55-72): a source containing
`"github.com"` or `'/'` goes to `fetchPackageJsonFromGitHub`
(lines 77-98), which throws when neither URL regex matches — the throw
is caught by `getPackageJson` and turned into `process.exit(1)`;
otherwise the local `package.json` is read. -/
def getPackageJsonRoute (source : String) : SourceRoute :=
  if containsSub "github.com".toList source.toList || source.toList.contains '/' then
    if ghUrlMatch source.toList || ownerRepoShorthand source.toList then .githubFetch
    else .fatalError
  else .localRead

/-- C10: a source selector containing `'/'` (or the substring
`"github.com"`) is routed to the GitHub fetcher and never read as a
local `package.json`; when additionally neither GitHub URL pattern nor
the two-segment `owner/repo` shorthand matches — e.g. a multi-segment
local path — the run dies fatally with exit status 1 before any
dependency is evaluated. -/
theorem getPackageJson_routing (source : String)
    (h : source.toList.contains '/' = true ∨
      containsSub "github.com".toList source.toList = true) :
    getPackageJsonRoute source ≠ SourceRoute.localRead ∧
    (ghUrlMatch source.toList = false → ownerRepoShorthand source.toList = false →
      getPackageJsonRoute source = SourceRoute.fatalError) := by
  have hcond :
      (containsSub "github.com".toList source.toList || source.toList.contains '/') = true := by
    rcases h with h | h
    · rw [h, Bool.or_true]
    · rw [h, Bool.true_or]
  have hroute : getPackageJsonRoute source =
      (if (ghUrlMatch source.toList || ownerRepoShorthand source.toList) = true
        then SourceRoute.githubFetch else SourceRoute.fatalError) := by
    unfold getPackageJsonRoute
    rw [hcond]
    simp
  constructor
  · intro hloc
    rw [hroute] at hloc
    split at hloc <;> exact SourceRoute.noConfusion hloc
  · intro h1 h2
    rw [hroute, h1, h2]
    simp

/-- C10 witness: the multi-segment local path `"/path/to/project"`
contains `'/'`, matches neither pattern, and is fatal. -/
theorem getPackageJson_routing_witness :
    "/path/to/project".toList.contains '/' = true ∧
    getPackageJsonRoute "/path/to/project" = SourceRoute.fatalError := by
  refine ⟨by decide, ?_⟩
  exact (getPackageJson_routing "/path/to/project" (Or.inl (by decide))).2
    (by decide) (by decide)

end LFDT
